import Mathlib

/-!
Shallow embedding of a Go microservice system: an API gateway fronting a
censor (moderation) service, a comment (persistence) service and a news
aggregator. Each HTTP handler is embedded as a pure Lean function; the
gateway's outbound HTTP calls are modelled through an explicit environment
function together with a trace of the calls issued. JSON wire values are
modelled by an inductive `Json` type; `http.Error` responses (plain text)
are distinguished from JSON-encoded bodies by the `Body` type.

Modelling conventions, stated once:
- Wall-clock timestamps (Go `time.Now()` formatted at second resolution,
  and SQLite `CURRENT_TIMESTAMP`) are modelled by an integer second count
  rendered with `formatTime`. The real renderings are injective functions
  of the second count, which is the only property used.
- Go `json.Marshal` of a struct emits fields in declaration order and
  honours `omitempty` (nil pointer / nil interface / empty string omitted);
  `json.Unmarshal` into a struct ignores unknown fields, leaves absent or
  null fields at their zero value, and fails on type mismatches; decoding
  into `interface{}` produces maps, which re-encode with keys sorted in
  byte order (`canonJson`).
- Database errors, request logging and the process lifecycle are not
  modelled; none of the verified claims concern them.
-/

/-- JSON values as they appear on the wire between the services. -/
inductive Json where
  | null : Json
  | str (s : String) : Json
  | num (n : Int) : Json
  | bool (b : Bool) : Json
  | arr (elems : List Json) : Json
  | obj (fields : List (String × Json)) : Json

/-- An HTTP response body: `text` is what Go's `http.Error` writes (a plain
text message, no JSON), `json` is what `json.NewEncoder(w).Encode` writes. -/
inductive Body where
  | text (s : String) : Body
  | json (j : Json) : Body

/-- An HTTP response: status code plus body. -/
structure HttpResponse where
  status : Nat
  body : Body

/-- First binding of a key in a JSON object field list (the encoders in this
development never produce duplicate keys). -/
def jLookup (k : String) : List (String × Json) → Option Json
  | [] => none
  | (k', v) :: fs => if k' = k then some v else jLookup k fs

/-- Lexicographic byte order on strings, as used by Go when it sorts the
keys of a `map[string]interface{}` during JSON encoding. -/
def charListLt : List Char → List Char → Bool
  | [], [] => false
  | [], _ :: _ => true
  | _ :: _, [] => false
  | a :: as, b :: bs =>
    if a.toNat < b.toNat then true
    else if b.toNat < a.toNat then false
    else charListLt as bs

/-- Byte order on strings (ASCII keys only in this development). -/
def keyLt (a b : String) : Bool := charListLt a.data b.data

/-- Insert a field into a key-sorted field list (stable for equal keys). -/
def insField (f : String × Json) : List (String × Json) → List (String × Json)
  | [] => [f]
  | g :: gs => if keyLt f.1 g.1 then f :: g :: gs else g :: insField f gs

/-- Sort a field list by key, as Go does when encoding a decoded
`map[string]interface{}` back to JSON. -/
def sortFields : List (String × Json) → List (String × Json)
  | [] => []
  | f :: fs => insField f (sortFields fs)

mutual
/-- The canonical form a JSON value takes after a Go decode into
`interface{}` followed by a re-encode: object keys become sorted. -/
def canonJson : Json → Json
  | .null => .null
  | .str s => .str s
  | .num n => .num n
  | .bool b => .bool b
  | .arr xs => .arr (canonList xs)
  | .obj fs => .obj (sortFields (canonFields fs))

def canonList : List Json → List Json
  | [] => []
  | x :: xs => canonJson x :: canonList xs

def canonFields : List (String × Json) → List (String × Json)
  | [] => []
  | (k, v) :: fs => (k, canonJson v) :: canonFields fs
end

/-- Pagination block of the shared `Response` envelope (Go struct
`Pagination` with fields `page`, `page_size`, `total`, `total_pages`). -/
structure Pagination where
  page : Int
  pageSize : Int
  total : Int
  totalPages : Int

/-- The shared envelope struct `Response` used by every service:
`Status string`, `Data interface{} (omitempty)`, `Error string (omitempty)`,
`Pagination *Pagination (omitempty)`. `data = none` models a nil interface
(field omitted on encode); `some Json.null` models a non-nil interface
holding a nil slice (encoded as a literal JSON null). -/
structure Response where
  status : String
  data : Option Json
  error : String
  pagination : Option Pagination

/-- Go encoding of a `Pagination` struct (declaration field order). -/
def encodePagination (p : Pagination) : Json :=
  .obj [("page", .num p.page), ("page_size", .num p.pageSize),
        ("total", .num p.total), ("total_pages", .num p.totalPages)]

/-- Go encoding of the `Response` struct with its `omitempty` tags. -/
def encodeResponse (r : Response) : Json :=
  .obj ([("status", .str r.status)]
    ++ (match r.data with | none => [] | some d => [("data", d)])
    ++ (if r.error = "" then [] else [("error", .str r.error)])
    ++ (match r.pagination with
        | none => []
        | some p => [("pagination", encodePagination p)]))

/-- Decode an int-typed struct field: absent or null gives the zero value,
a number gives its value, anything else is a decode error. -/
def intField? (k : String) (fs : List (String × Json)) : Option Int :=
  match jLookup k fs with
  | none => some 0
  | some .null => some 0
  | some (.num n) => some n
  | some _ => none

/-- Decode a string-typed struct field (zero value `""`). -/
def strField? (k : String) (fs : List (String × Json)) : Option String :=
  match jLookup k fs with
  | none => some ""
  | some .null => some ""
  | some (.str s) => some s
  | some _ => none

/-- Decode an `*int` struct field (absent or null gives a nil pointer). -/
def optIntField? (k : String) (fs : List (String × Json)) : Option (Option Int) :=
  match jLookup k fs with
  | none => some none
  | some .null => some none
  | some (.num n) => some (some n)
  | some _ => none

/-- Decode the `Data interface{}` field: absent or null both decode to a
nil interface; any other value is kept, canonicalised as a Go
`interface{}` decode would leave it. -/
def dataField? (fs : List (String × Json)) : Option (Option Json) :=
  match jLookup "data" fs with
  | none => some none
  | some .null => some none
  | some v => some (some (canonJson v))

/-- Decode the `Pagination *Pagination` field. -/
def pagField? (fs : List (String × Json)) : Option (Option Pagination) :=
  match jLookup "pagination" fs with
  | none => some none
  | some .null => some none
  | some (.obj pfs) =>
    match intField? "page" pfs, intField? "page_size" pfs,
          intField? "total" pfs, intField? "total_pages" pfs with
    | some a, some b, some c, some d => some (some ⟨a, b, c, d⟩)
    | _, _, _, _ => none
  | some _ => none

/-- Go decode of a response body into the `Response` struct, as the gateway
performs with `json.NewDecoder(resp.Body).Decode(&response)`. A plain-text
body (from `http.Error`) is not valid JSON and fails to decode. -/
def decodeResponse : Body → Option Response
  | .text _ => none
  | .json (.obj fs) =>
    match strField? "status" fs, dataField? fs, strField? "error" fs, pagField? fs with
    | some st, some d, some er, some pg => some ⟨st, d, er, pg⟩
    | _, _, _, _ => none
  | .json .null => some ⟨"", none, "", none⟩
  | .json _ => none

/-- News item (`id`, `title`, `content`, `date`), the `date` being the
collaborator's wall-clock rendering (see `formatTime`). -/
structure NewsItem where
  id : Int
  title : String
  content : String
  date : String

/-- Go encoding of a `NewsItem` struct (declaration field order). -/
def encodeNewsItem (item : NewsItem) : Json :=
  .obj [("id", .num item.id), ("title", .str item.title),
        ("content", .str item.content), ("date", .str item.date)]

/-- Go decode of a response body into the `NewsItem` struct, as the gateway
does for the news collaborator's reply. -/
def decodeNewsItem : Body → Option NewsItem
  | .text _ => none
  | .json (.obj fs) =>
    match intField? "id" fs, strField? "title" fs,
          strField? "content" fs, strField? "date" fs with
    | some i, some t, some c, some d => some ⟨i, t, c, d⟩
    | _, _, _, _ => none
  | .json .null => some ⟨0, "", "", ""⟩
  | .json _ => none

/-- A stored comment: `id` and `created_at` are assigned by the store,
`parent_id` is a nullable reference. -/
structure Comment where
  id : Int
  newsId : Int
  parentId : Option Int
  text : String
  createdAt : String

/-- Go encoding of a `Comment` struct (field order `id`, `news_id`,
`parent_id` with `omitempty` on the pointer, `text`, `created_at`). -/
def encodeComment (c : Comment) : Json :=
  .obj ([("id", .num c.id), ("news_id", .num c.newsId)]
    ++ (match c.parentId with | none => [] | some p => [("parent_id", .num p)])
    ++ [("text", .str c.text), ("created_at", .str c.createdAt)])

/-- The body of a comment submission (`news_id`, optional `parent_id`,
`text`). -/
structure CommentRequest where
  newsId : Int
  parentId : Option Int
  text : String

/-- Go encoding of a `CommentRequest` struct, as the gateway re-marshals
the validated request before forwarding it to the comment service. -/
def encodeCommentRequest (req : CommentRequest) : Json :=
  .obj ([("news_id", .num req.newsId)]
    ++ (match req.parentId with | none => [] | some p => [("parent_id", .num p)])
    ++ [("text", .str req.text)])

/-- Go decode of a request body into `CommentRequest`; `none` input models
a body that is not valid JSON. -/
def decodeCommentRequest : Option Json → Option CommentRequest
  | some (.obj fs) =>
    match intField? "news_id" fs, optIntField? "parent_id" fs, strField? "text" fs with
    | some nid, some pid, some t => some ⟨nid, pid, t⟩
    | _, _, _ => none
  | some .null => some ⟨0, none, ""⟩
  | _ => none

/-- The censor service's request body struct `CheckRequest`. -/
structure CheckRequest where
  text : String

/-- Go decode of a request body into `CheckRequest`. -/
def decodeCheckRequest : Option Json → Option CheckRequest
  | some (.obj fs) =>
    match strField? "text" fs with
    | some t => some ⟨t⟩
    | none => none
  | some .null => some ⟨""⟩
  | _ => none

/-- Strip a prefix from a character list, returning the remainder. -/
def stripPre? (p : List Char) (s : List Char) : Option (List Char) :=
  match p, s with
  | [], rest => some rest
  | _ :: _, [] => none
  | a :: ps, b :: ss => if a = b then stripPre? ps ss else none

/-- Strip a string prefix, returning the remaining suffix. -/
def stripPreStr? (p : String) (s : String) : Option String :=
  (stripPre? p.data s.data).map (fun l => String.mk l)

/-- Substring test on character lists, the core of Go's
`strings.Contains`. -/
def containsChars (sub : List Char) : List Char → Bool
  | [] => sub.isEmpty
  | c :: cs => (stripPre? sub (c :: cs)).isSome || containsChars sub cs

/-- Go `strings.Contains s sub`. -/
def containsStr (s sub : String) : Bool := containsChars sub.data s.data

/-- ASCII lower case of one character. Go's `strings.ToLower` lowers the
full Unicode range; the banned-word set is stored already lower-cased and
all case folding relevant to the claims is ASCII, so the ASCII fragment is
the part of the function exercised here. -/
def toLowerChar (c : Char) : Char :=
  if 'A' ≤ c ∧ c ≤ 'Z' then Char.ofNat (c.toNat + 32) else c

/-- Go `strings.ToLower` (ASCII fragment, see `toLowerChar`). -/
def toLowerStr (s : String) : String := String.mk (s.data.map toLowerChar)

/-- Value of a decimal digit character. -/
def digitVal? (c : Char) : Option Nat :=
  if '0' ≤ c ∧ c ≤ '9' then some (c.toNat - 48) else none

/-- Accumulate the value of a digit run; fails on a non-digit. -/
def digitsVal? (acc : Nat) : List Char → Option Nat
  | [] => some acc
  | c :: cs =>
    match digitVal? c with
    | some d => digitsVal? (acc * 10 + d) cs
    | none => none

/-- Go `strconv.Atoi`: optional sign followed by at least one digit, all
characters consumed (64-bit overflow, irrelevant to the claims, is not
modelled). -/
def atoi? (s : String) : Option Int :=
  match s.data with
  | [] => none
  | '-' :: cs =>
    match cs with
    | [] => none
    | _ => (digitsVal? 0 cs).map (fun n => -(n : Int))
  | '+' :: cs =>
    match cs with
    | [] => none
    | _ => (digitsVal? 0 cs).map (fun n => (n : Int))
  | cs => (digitsVal? 0 cs).map (fun n => (n : Int))

/-- Second-resolution wall-clock rendering (Go `Format("2006-01-02
15:04:05")`, SQLite `CURRENT_TIMESTAMP`), modelled by the second count
itself: the real renderings are injective in the second count and that is
the only property the development relies on. -/
def formatTime (t : Int) : String := toString t

namespace CensorService

/-- The banned substrings installed by `NewCensorService` (stored
lower-cased; map iteration order does not affect the disjunction). -/
def bannedWords : List String := ["qwerty", "йцукен", "zxvbnm"]

/-- `CensorService.IsBanned`: lower-case the text and test each banned
word for substring occurrence. -/
def IsBanned (text : String) : Bool :=
  bannedWords.any (fun w => containsStr (toLowerStr text) w)

/-- The censor service's `POST /check` handler (`checkHandler`). -/
def checkHandler (reqBody : Option Json) : HttpResponse :=
  match decodeCheckRequest reqBody with
  | none => ⟨400, .text "Invalid request body"⟩
  | some req =>
    if IsBanned req.text then ⟨400, .text "Text contains prohibited content"⟩
    else ⟨200, .json (encodeResponse
      ⟨"success", some (.obj [("message", .str "Text is clean")]), "", none⟩)⟩

end CensorService

namespace CommentService

/-- The comment service's SQLite table: stored rows in insertion (rowid)
order, plus the next AUTOINCREMENT id (ids start at 1). -/
structure CommentStore where
  comments : List Comment
  nextId : Int

/-- A freshly initialised database. -/
def emptyStore : CommentStore := ⟨[], 1⟩

/-- Stable insertion by `created_at` (SQLite compares the TEXT timestamps,
whose rendering is byte-order-monotone in time; rows with equal timestamps
keep table-scan order). -/
def insByCreated (c : Comment) : List Comment → List Comment
  | [] => [c]
  | d :: ds =>
    if charListLt c.createdAt.data d.createdAt.data then c :: d :: ds
    else d :: insByCreated c ds

/-- `ORDER BY created_at ASC`. -/
def sortByCreated : List Comment → List Comment
  | [] => []
  | c :: cs => insByCreated c (sortByCreated cs)

/-- The comment service's `GET /comments` handler (`getCommentsHandler`);
`newsIdParam` is the raw `news_id` query value, `""` meaning absent.
A nil result slice (no rows) is encoded by Go as a literal JSON null. -/
def getCommentsHandler (store : CommentStore) (newsIdParam : String) : HttpResponse :=
  if newsIdParam = "" then ⟨400, .text "news_id parameter is required"⟩
  else
    match atoi? newsIdParam with
    | none => ⟨400, .text "Invalid news_id parameter"⟩
    | some nid =>
      let comments := sortByCreated (store.comments.filter (fun c => c.newsId = nid))
      ⟨200, .json (encodeResponse
        ⟨"success",
         some (if comments.isEmpty then Json.null
               else Json.arr (comments.map encodeComment)),
         "", none⟩)⟩

/-- The row inserted for an accepted request together with the updated
store: the stored `parent_id` is nulled unless strictly positive, the id is
the AUTOINCREMENT value and `created_at` the current timestamp. The
handler's re-SELECT of the inserted row returns exactly this row. -/
def insertComment (store : CommentStore) (now : Int) (req : CommentRequest) :
    CommentStore × Comment :=
  let parentID : Option Int :=
    match req.parentId with
    | some p => if p > 0 then some p else none
    | none => none
  let c : Comment := ⟨store.nextId, req.newsId, parentID, req.text, formatTime now⟩
  (⟨store.comments ++ [c], store.nextId + 1⟩, c)

/-- The comment service's `POST /comments` handler (`createCommentHandler`):
decode, validate, check that an explicitly supplied `parent_id` references
an existing row, insert, and return the stored row in a success envelope.
Database failures are not modelled. -/
def createCommentHandler (store : CommentStore) (now : Int) (reqBody : Option Json) :
    CommentStore × HttpResponse :=
  match decodeCommentRequest reqBody with
  | none => (store, ⟨400, .text "Invalid request body"⟩)
  | some req =>
    if req.text = "" then (store, ⟨400, .text "Comment text is required"⟩)
    else if req.newsId ≤ 0 then (store, ⟨400, .text "Valid news ID is required"⟩)
    else
      let doInsert : CommentStore × HttpResponse :=
        let (store', c) := insertComment store now req
        (store', ⟨200, .json (encodeResponse
          ⟨"success", some (encodeComment c), "", none⟩)⟩)
      match req.parentId with
      | some pid =>
        if store.comments.any (fun c => c.id = pid) then doInsert
        else (store, ⟨400, .text "Parent comment does not exist"⟩)
      | none => doInsert

end CommentService

namespace NewsAggregator

/-- The five mock news items (`generateMockNews` / `findNewsByID` build the
same list), with dates rendered from the current clock: now, -24h, -48h,
-12h, -36h. -/
def mockNews (now : Int) : List NewsItem :=
  [⟨1, "Новости технологий",
    "В этом выпуске: последние обновления в мире технологий, новые релизы и тренды.",
    formatTime now⟩,
   ⟨2, "Экономическая аналитика",
    "Анализ текущей экономической ситуации и прогнозы на ближайшие месяцы.",
    formatTime (now - 86400)⟩,
   ⟨3, "Политические события",
    "Обзор последних политических событий в стране и за рубежом.",
    formatTime (now - 172800)⟩,
   ⟨4, "Спортивные новости",
    "Результаты последних соревнований и интервью с известными спортсменами.",
    formatTime (now - 43200)⟩,
   ⟨5, "Культура и искусство",
    "Открытие новых выставок, премьеры фильмов и театральных постановок.",
    formatTime (now - 129600)⟩]

/-- `findNewsByID`: first mock item with the given id. -/
def findNewsByID (id : Int) (now : Int) : Option NewsItem :=
  (mockNews now).find? (fun item => item.id = id)

/-- The news aggregator's `GET /news/{id}` handler (`getNewsByIDHandler`):
bad id gives a plain-text 400, a missing id a plain-text 404, a hit the
bare `NewsItem` encoded as JSON (no envelope). -/
def getNewsByIDHandler (idStr : String) (now : Int) : HttpResponse :=
  match atoi? idStr with
  | none => ⟨400, .text "Invalid news ID"⟩
  | some id =>
    match findNewsByID id now with
    | none => ⟨404, .text "News not found"⟩
    | some item => ⟨200, .json (encodeNewsItem item)⟩

end NewsAggregator

/-- An outbound HTTP call issued by the gateway: method, URL, the headers
the gateway sets explicitly, and the JSON body if any. -/
structure DownstreamCall where
  method : String
  url : String
  headers : List (String × String)
  body : Option Json

namespace Gateway

/-- Gateway configuration (service base URLs, from environment with
defaults). -/
structure Config where
  port : String
  commentServiceURL : String
  censorServiceURL : String
  newsAggregatorURL : String

/-- The configuration produced by `main` when no environment overrides are
present. -/
def defaultConfig : Config :=
  ⟨"8080", "http://comment-service:8081", "http://censor-service:8082",
   "http://news-aggregator:8083"⟩

/-- Hex digit character (lower case). -/
def hexChar (n : Nat) : Char :=
  if n % 16 < 10 then Char.ofNat (48 + n % 16) else Char.ofNat (87 + n % 16)

/-- Fixed-width lower-case hex rendering. -/
def hexStr (len : Nat) (n : Nat) : String :=
  String.mk ((List.range len).map (fun i => hexChar (n / 16 ^ (len - 1 - i))))

/-- The 8-4-4-4-12 rendering of `uuid.New().String()`, applied to the five
random groups: always 36 characters, in particular never empty. -/
def uuidString (a b c d e : Nat) : String :=
  hexStr 8 a ++ "-" ++ hexStr 4 b ++ "-" ++ hexStr 4 c ++ "-" ++
    hexStr 4 d ++ "-" ++ hexStr 12 e

/-- `requestIDMiddleware`: keep a non-empty inbound `X-Request-ID` header
(`headerValue`, `""` meaning absent), otherwise use the freshly generated
identifier. -/
def requestIDMiddleware (headerValue : String) (fresh : String) : String :=
  if headerValue = "" then fresh else headerValue

/-- The moderation call `createCommentHandler` issues: `POST {censor}/check`
with the text payload and the correlation identifier header. -/
def censorCall (cfg : Config) (requestId : String) (text : String) : DownstreamCall :=
  ⟨"POST", cfg.censorServiceURL ++ "/check",
   [("Content-Type", "application/json"), ("X-Request-ID", requestId)],
   some (.obj [("text", .str text)])⟩

/-- The persistence call `createCommentHandler` issues: `POST
{comment}/comments` with the re-marshalled request and the correlation
identifier header. -/
def commentCall (cfg : Config) (requestId : String) (req : CommentRequest) : DownstreamCall :=
  ⟨"POST", cfg.commentServiceURL ++ "/comments",
   [("Content-Type", "application/json"), ("X-Request-ID", requestId)],
   some (encodeCommentRequest req)⟩

/-- The news fetch `getNewsByIDHandler` issues via `client.Get`: note that
no `X-Request-ID` header is set on it. -/
def newsCall (cfg : Config) (idParam : String) : DownstreamCall :=
  ⟨"GET", cfg.newsAggregatorURL ++ "/news/" ++ idParam, [], none⟩

/-- The comment-list fetch `getNewsByIDHandler` issues via `client.Get`:
again without an `X-Request-ID` header. -/
def commentsCall (cfg : Config) (newsIDInt : Int) : DownstreamCall :=
  ⟨"GET", cfg.commentServiceURL ++ "/comments?news_id=" ++ toString newsIDInt,
   [], none⟩

/-- The gateway's `POST /comment` handler (`createCommentHandler`),
parameterised by the downstream world `env` (collaborator state `σ` plus
per-call responses, `none` modelling a transport error). Returns the final
collaborator state, the trace of calls issued in order, and the HTTP
response written to the client. -/
def createCommentHandler {σ : Type} (cfg : Config)
    (env : σ → DownstreamCall → σ × Option HttpResponse) (s0 : σ)
    (requestId : String) (reqBody : Option Json) :
    σ × List DownstreamCall × HttpResponse :=
  match decodeCommentRequest reqBody with
  | none => (s0, [], ⟨400, .text "Invalid request body"⟩)
  | some req =>
    if req.text = "" then (s0, [], ⟨400, .text "Comment text is required"⟩)
    else if req.newsId ≤ 0 then (s0, [], ⟨400, .text "Valid news ID is required"⟩)
    else
      let cCall := censorCall cfg requestId req.text
      let s1 := (env s0 cCall).1
      match (env s0 cCall).2 with
      | none => (s1, [cCall],
          ⟨500, .text "Failed to check comment with censor service"⟩)
      | some censorResp =>
        if censorResp.status ≠ 200 then
          (s1, [cCall], ⟨400, .text "Comment contains prohibited content"⟩)
        else
          let pCall := commentCall cfg requestId req
          let s2 := (env s1 pCall).1
          match (env s1 pCall).2 with
          | none => (s2, [cCall, pCall], ⟨500, .text "Failed to save comment"⟩)
          | some commentResp =>
            if commentResp.status ≠ 200 then
              (s2, [cCall, pCall], ⟨500, .text "Failed to save comment"⟩)
            else
              match decodeResponse commentResp.body with
              | none => (s2, [cCall, pCall],
                  ⟨500, .text "Failed to decode comment response"⟩)
              | some commentResponse =>
                (s2, [cCall, pCall],
                 ⟨200, .json (encodeResponse commentResponse)⟩)

/-- The merged `GET /news/{id}` success payload: a `map[string]interface{}`
holding the news item, the comment data verbatim and the correlation
identifier; Go encodes the map with its keys in sorted order. -/
def mergedPayload (item : NewsItem) (commentsData : Json) (requestId : String) : Json :=
  .obj [("comments", commentsData), ("news", encodeNewsItem item),
        ("request_id", .str requestId)]

/-- The gateway's `GET /news/{id}` handler (`getNewsByIDHandler`): parse the
id, fetch and decode the news item, fetch and decode the comment envelope,
merge. The news response's status code is never inspected; only a body
that fails to decode stops the aggregation. -/
def getNewsByIDHandler {σ : Type} (cfg : Config)
    (env : σ → DownstreamCall → σ × Option HttpResponse) (s0 : σ)
    (requestId : String) (idParam : String) :
    σ × List DownstreamCall × HttpResponse :=
  match atoi? idParam with
  | none => (s0, [], ⟨400, .text "Invalid news ID"⟩)
  | some newsIDInt =>
    let nCall := newsCall cfg idParam
    let s1 := (env s0 nCall).1
    match (env s0 nCall).2 with
    | none => (s1, [nCall], ⟨500, .text "Failed to fetch news"⟩)
    | some newsResp =>
      match decodeNewsItem newsResp.body with
      | none => (s1, [nCall], ⟨500, .text "Failed to decode news response"⟩)
      | some newsItem =>
        let cCall := commentsCall cfg newsIDInt
        let s2 := (env s1 cCall).1
        match (env s1 cCall).2 with
        | none => (s2, [nCall, cCall], ⟨500, .text "Failed to fetch comments"⟩)
        | some commentsResp =>
          match decodeResponse commentsResp.body with
          | none => (s2, [nCall, cCall],
              ⟨500, .text "Failed to decode comments response"⟩)
          | some commentsResponse =>
            (s2, [nCall, cCall],
             ⟨200, .json (encodeResponse
               ⟨"success",
                some (mergedPayload newsItem
                        ((commentsResponse.data).getD Json.null) requestId),
                "", none⟩)⟩)

end Gateway

/-- The composed system: an environment that routes the gateway's outbound
calls (by URL, under the default configuration) to the embedded censor,
comment and news services; the comment store is the collaborator state and
`now` the collaborator wall clock. Unroutable calls are transport
errors. -/
def sysEnv (now : Int) (store : CommentService.CommentStore) (c : DownstreamCall) :
    CommentService.CommentStore × Option HttpResponse :=
  match stripPreStr? "http://censor-service:8082/check" c.url with
  | some _ =>
    if c.method = "POST" then (store, some (CensorService.checkHandler c.body))
    else (store, none)
  | none =>
  match stripPreStr? "http://comment-service:8081/comments?news_id=" c.url with
  | some nidStr =>
    if c.method = "GET" then
      (store, some (CommentService.getCommentsHandler store nidStr))
    else (store, none)
  | none =>
  match stripPreStr? "http://comment-service:8081/comments" c.url with
  | some _ =>
    if c.method = "POST" then
      let r := CommentService.createCommentHandler store now c.body
      (r.1, some r.2)
    else (store, none)
  | none =>
  match stripPreStr? "http://news-aggregator:8083/news/" c.url with
  | some idStr =>
    if c.method = "GET" then
      (store, some (NewsAggregator.getNewsByIDHandler idStr now))
    else (store, none)
  | none => (store, none)

/-- A call that would reach the persistence (comment) collaborator: any
call whose URL lies under the comment service base URL. -/
def isPersistenceCall (c : DownstreamCall) : Prop :=
  (stripPreStr? "http://comment-service:8081" c.url).isSome = true

instance (c : DownstreamCall) : Decidable (isPersistenceCall c) := by
  unfold isPersistenceCall; infer_instance

/-- Whether a call carries the given correlation identifier as an
`X-Request-ID` header. -/
def hasRequestId (rid : String) (c : DownstreamCall) : Bool :=
  c.headers.any (fun h => h.1 == "X-Request-ID" && h.2 == rid)

/-- Project the string value out of an optional JSON value. -/
def jStr? : Option Json → Option String
  | some (.str s) => some s
  | _ => none

/-- Field access on a JSON object. -/
def jGet (k : String) : Json → Option Json
  | .obj fs => jLookup k fs
  | _ => none

/-- The JSON body of a response, if it has one. -/
def jsonBody? : HttpResponse → Option Json
  | ⟨_, .json j⟩ => some j
  | _ => none

/-- The `date` field of the news item inside a merged `GET /news/{id}`
payload, used to observe clock-dependence of the aggregated response. -/
def newsDateOf (r : HttpResponse) : Option String :=
  jStr? ((jsonBody? r).bind (jGet "data") |>.bind (jGet "news") |>.bind (jGet "date"))

/-- Discriminator: is the body a JSON body (as opposed to an `http.Error`
plain-text body)? -/
def isJsonBody : Body → Bool
  | .json _ => true
  | .text _ => false

/-- The comment service's parent-existence precondition: an explicitly
supplied `parent_id` must reference a stored comment (its `SELECT 1 FROM
comments WHERE id = ?` probe succeeds); an omitted one needs nothing. -/
def parentOk (store : CommentService.CommentStore) (req : CommentRequest) : Prop :=
  match req.parentId with
  | none => True
  | some p => store.comments.any (fun c => c.id = p) = true

/-! ## Helper lemmas -/

theorem decodeCommentRequest_encode (req : CommentRequest) :
    decodeCommentRequest (some (encodeCommentRequest req)) = some req := by
  cases req with
  | mk nid pid t => cases pid <;> rfl

theorem decodeCheckRequest_text (t : String) :
    decodeCheckRequest (some (.obj [("text", .str t)])) = some ⟨t⟩ := rfl

theorem checkHandler_eq (t : String) :
    CensorService.checkHandler (some (.obj [("text", .str t)])) =
      if CensorService.IsBanned t then ⟨400, .text "Text contains prohibited content"⟩
      else ⟨200, .json (encodeResponse
        ⟨"success", some (.obj [("message", .str "Text is clean")]), "", none⟩)⟩ := rfl

theorem decodeResponse_commentEnvelope (c : Comment) :
    decodeResponse (.json (encodeResponse ⟨"success", some (encodeComment c), "", none⟩)) =
      some ⟨"success", some (canonJson (encodeComment c)), "", none⟩ := by
  cases c with
  | mk i n p t ca => cases p <;> rfl

theorem sysEnv_censorCall (now : Int) (store : CommentService.CommentStore)
    (rid t : String) :
    sysEnv now store (Gateway.censorCall Gateway.defaultConfig rid t) =
      (store, some (CensorService.checkHandler (some (.obj [("text", .str t)])))) := rfl

theorem sysEnv_commentCall (now : Int) (store : CommentService.CommentStore)
    (rid : String) (req : CommentRequest) :
    sysEnv now store (Gateway.commentCall Gateway.defaultConfig rid req) =
      ((CommentService.createCommentHandler store now (some (encodeCommentRequest req))).1,
       some (CommentService.createCommentHandler store now (some (encodeCommentRequest req))).2) := rfl

theorem sysEnv_newsCall (now : Int) (store : CommentService.CommentStore) (idParam : String) :
    sysEnv now store (Gateway.newsCall Gateway.defaultConfig idParam) =
      (store, some (NewsAggregator.getNewsByIDHandler idParam now)) := by
  cases idParam with
  | mk data => rfl

theorem sysEnv_commentsUrl (now : Int) (store : CommentService.CommentStore) (s : String) :
    sysEnv now store
      ⟨"GET", ("http://comment-service:8081" ++ "/comments?news_id=") ++ s, [], none⟩ =
      (store, some (CommentService.getCommentsHandler store s)) := by
  cases s with
  | mk data => rfl

theorem sysEnv_commentsCall (now : Int) (store : CommentService.CommentStore) (nid : Int) :
    sysEnv now store (Gateway.commentsCall Gateway.defaultConfig nid) =
      (store, some (CommentService.getCommentsHandler store (toString nid))) :=
  sysEnv_commentsUrl now store (toString nid)

theorem censorCall_not_persistence (rid t : String) :
    ¬ isPersistenceCall (Gateway.censorCall Gateway.defaultConfig rid t) :=
  fun h => Bool.noConfusion h

/-! ## Claims -/

/-- C6: a POST /comment body with empty text or a non-positive news id is
rejected with HTTP 400 before any downstream call is issued: the call
trace is empty. -/
theorem c6_validation_rejects_without_downstream_calls {σ : Type}
    (env : σ → DownstreamCall → σ × Option HttpResponse) (s0 : σ)
    (requestId : String) (reqBody : Option Json) (req : CommentRequest)
    (hdec : decodeCommentRequest reqBody = some req)
    (hbad : req.text = "" ∨ req.newsId ≤ 0) :
    (Gateway.createCommentHandler Gateway.defaultConfig env s0 requestId reqBody).2.1 = [] ∧
    (Gateway.createCommentHandler Gateway.defaultConfig env s0 requestId reqBody).2.2.status = 400 := by
  by_cases ht : req.text = ""
  · have hrun : Gateway.createCommentHandler Gateway.defaultConfig env s0 requestId reqBody =
        (s0, [], ⟨400, Body.text "Comment text is required"⟩) := by
      simp only [Gateway.createCommentHandler, hdec]
      rw [if_pos ht]
    rw [hrun]
    exact ⟨rfl, rfl⟩
  · rcases hbad with h | h
    · exact absurd h ht
    · have hrun : Gateway.createCommentHandler Gateway.defaultConfig env s0 requestId reqBody =
          (s0, [], ⟨400, Body.text "Valid news ID is required"⟩) := by
        simp only [Gateway.createCommentHandler, hdec]
        rw [if_neg ht, if_pos h]
      rw [hrun]
      exact ⟨rfl, rfl⟩

/-- C6 witness: a concrete run with news_id 0 issues no downstream call
and returns 400. -/
theorem c6_validation_witness :
    (Gateway.createCommentHandler Gateway.defaultConfig
        (fun (s : Unit) _ => (s, none)) () "r"
        (some (.obj [("news_id", .num 0), ("text", .str "hi")]))).2.1 = [] ∧
    (Gateway.createCommentHandler Gateway.defaultConfig
        (fun (s : Unit) _ => (s, none)) () "r"
        (some (.obj [("news_id", .num 0), ("text", .str "hi")]))).2.2.status = 400 :=
  c6_validation_rejects_without_downstream_calls (fun s _ => (s, none)) () "r" _
    ⟨0, none, "hi"⟩ rfl (Or.inr (by decide))

/-- C1: when the moderation collaborator answers any non-200 status, the
gateway issues no persistence call (the trace holds only the censor call)
and returns HTTP 400 with the fixed rejection message. -/
theorem c1_moderation_reject_no_persistence {σ : Type}
    (env : σ → DownstreamCall → σ × Option HttpResponse) (s0 : σ)
    (requestId : String) (reqBody : Option Json)
    (req : CommentRequest) (resp : HttpResponse)
    (hdec : decodeCommentRequest reqBody = some req)
    (htext : req.text ≠ "") (hnid : 0 < req.newsId)
    (henv : (env s0 (Gateway.censorCall Gateway.defaultConfig requestId req.text)).2 = some resp)
    (hreject : resp.status ≠ 200) :
    (∀ c ∈ (Gateway.createCommentHandler Gateway.defaultConfig env s0 requestId reqBody).2.1,
        ¬ isPersistenceCall c) ∧
    (Gateway.createCommentHandler Gateway.defaultConfig env s0 requestId reqBody).2.2 =
      ⟨400, Body.text "Comment contains prohibited content"⟩ := by
  have hle : ¬ (req.newsId ≤ 0) := by omega
  have hrun : Gateway.createCommentHandler Gateway.defaultConfig env s0 requestId reqBody =
      ((env s0 (Gateway.censorCall Gateway.defaultConfig requestId req.text)).1,
       [Gateway.censorCall Gateway.defaultConfig requestId req.text],
       ⟨400, Body.text "Comment contains prohibited content"⟩) := by
    simp only [Gateway.createCommentHandler, hdec]
    rw [if_neg htext, if_neg hle]
    simp only [henv]
    rw [if_pos hreject]
  rw [hrun]
  refine ⟨?_, rfl⟩
  intro c hc
  simp only [List.mem_singleton] at hc
  subst hc
  exact censorCall_not_persistence requestId req.text

/-- C1 witness: a concrete rejected submission yields 400 and a trace free
of persistence calls. -/
theorem c1_moderation_reject_witness :
    (∀ c ∈ (Gateway.createCommentHandler Gateway.defaultConfig
        (fun (s : Unit) _ => (s, some ⟨400, Body.text "Text contains prohibited content"⟩)) () "r"
        (some (.obj [("news_id", .num 1), ("text", .str "contains qwerty")]))).2.1,
        ¬ isPersistenceCall c) ∧
    (Gateway.createCommentHandler Gateway.defaultConfig
        (fun (s : Unit) _ => (s, some ⟨400, Body.text "Text contains prohibited content"⟩)) () "r"
        (some (.obj [("news_id", .num 1), ("text", .str "contains qwerty")]))).2.2 =
      ⟨400, Body.text "Comment contains prohibited content"⟩ :=
  c1_moderation_reject_no_persistence
    (fun s _ => (s, some ⟨400, Body.text "Text contains prohibited content"⟩)) () "r" _
    ⟨1, none, "contains qwerty"⟩ ⟨400, Body.text "Text contains prohibited content"⟩
    rfl (by decide) (by decide) rfl (by decide)

/-- C2: when the call to the moderation collaborator fails at transport
level, the gateway issues no persistence call (fail-closed) and returns
HTTP 500; no comment is ever forwarded for storage. -/
theorem c2_moderation_unreachable_fail_closed {σ : Type}
    (env : σ → DownstreamCall → σ × Option HttpResponse) (s0 : σ)
    (requestId : String) (reqBody : Option Json) (req : CommentRequest)
    (hdec : decodeCommentRequest reqBody = some req)
    (htext : req.text ≠ "") (hnid : 0 < req.newsId)
    (henv : (env s0 (Gateway.censorCall Gateway.defaultConfig requestId req.text)).2 = none) :
    (∀ c ∈ (Gateway.createCommentHandler Gateway.defaultConfig env s0 requestId reqBody).2.1,
        ¬ isPersistenceCall c) ∧
    (Gateway.createCommentHandler Gateway.defaultConfig env s0 requestId reqBody).2.2 =
      ⟨500, Body.text "Failed to check comment with censor service"⟩ := by
  have hle : ¬ (req.newsId ≤ 0) := by omega
  have hrun : Gateway.createCommentHandler Gateway.defaultConfig env s0 requestId reqBody =
      ((env s0 (Gateway.censorCall Gateway.defaultConfig requestId req.text)).1,
       [Gateway.censorCall Gateway.defaultConfig requestId req.text],
       ⟨500, Body.text "Failed to check comment with censor service"⟩) := by
    simp only [Gateway.createCommentHandler, hdec]
    rw [if_neg htext, if_neg hle]
    simp only [henv]
  rw [hrun]
  refine ⟨?_, rfl⟩
  intro c hc
  simp only [List.mem_singleton] at hc
  subst hc
  exact censorCall_not_persistence requestId req.text

/-- C2 witness: a concrete transport failure on the moderation call yields
500 and a trace free of persistence calls. -/
theorem c2_moderation_unreachable_witness :
    (∀ c ∈ (Gateway.createCommentHandler Gateway.defaultConfig
        (fun (s : Unit) _ => (s, none)) () "r"
        (some (.obj [("news_id", .num 1), ("text", .str "hello")]))).2.1,
        ¬ isPersistenceCall c) ∧
    (Gateway.createCommentHandler Gateway.defaultConfig
        (fun (s : Unit) _ => (s, none)) () "r"
        (some (.obj [("news_id", .num 1), ("text", .str "hello")]))).2.2 =
      ⟨500, Body.text "Failed to check comment with censor service"⟩ :=
  c2_moderation_unreachable_fail_closed (fun s _ => (s, none)) () "r" _
    ⟨1, none, "hello"⟩ rfl (by decide) (by decide) rfl

theorem decodeNewsItem_encode (item : NewsItem) :
    decodeNewsItem (.json (encodeNewsItem item)) = some item := by
  cases item
  rfl

theorem csCreate_ok (store : CommentService.CommentStore) (now : Int) (req : CommentRequest)
    (htext : req.text ≠ "") (hnid : 0 < req.newsId) (hparent : parentOk store req) :
    CommentService.createCommentHandler store now (some (encodeCommentRequest req)) =
      ((CommentService.insertComment store now req).1,
       ⟨200, Body.json (encodeResponse ⟨"success",
          some (encodeComment (CommentService.insertComment store now req).2), "", none⟩)⟩) := by
  have hle : ¬ (req.newsId ≤ 0) := by omega
  simp only [CommentService.createCommentHandler, decodeCommentRequest_encode]
  rw [if_neg htext, if_neg hle]
  cases hp : req.parentId with
  | none => rfl
  | some p =>
    have hany := hparent
    simp only [parentOk, hp] at hany
    simp only [hany]
    rfl

/-- C4 counterexample: the rejected-comment scenario does not produce a
JSON error envelope: the gateway answers through `http.Error` with a
plain-text body, so the body is not JSON at all. -/
theorem c4_counterexample :
    (Gateway.createCommentHandler Gateway.defaultConfig (sysEnv 0)
        CommentService.emptyStore "r"
        (some (.obj [("news_id", .num 1), ("text", .str "contains qwerty")]))).2.2.body =
      Body.text "Comment contains prohibited content" ∧
    isJsonBody
      (Gateway.createCommentHandler Gateway.defaultConfig (sysEnv 0)
        CommentService.emptyStore "r"
        (some (.obj [("news_id", .num 1), ("text", .str "contains qwerty")]))).2.2.body = false :=
  ⟨rfl, rfl⟩

/-- C4 amended: gateway-side terminal failures are written by `http.Error`
as plain-text messages, not JSON envelopes; the prohibited-content scenario
returns HTTP 400 with the plain-text body "Comment contains prohibited
content" and leaves the persistence store empty. -/
theorem c4_scenario_plain_text_400_store_empty :
    Gateway.createCommentHandler Gateway.defaultConfig (sysEnv 0)
        CommentService.emptyStore "r"
        (some (.obj [("news_id", .num 1), ("text", .str "contains qwerty")])) =
      (CommentService.emptyStore,
       [Gateway.censorCall Gateway.defaultConfig "r" "contains qwerty"],
       ⟨400, Body.text "Comment contains prohibited content"⟩) := rfl

/-- C9 counterexample: an explicit `parent_id` of 0 is not treated like an
omitted one: against an empty store the explicit-0 submission is rejected
with 400 "Parent comment does not exist", while the same submission
without `parent_id` is stored with a null parent. -/
theorem c9_counterexample :
    CommentService.createCommentHandler CommentService.emptyStore 0
        (some (.obj [("news_id", .num 1), ("parent_id", .num 0), ("text", .str "hi")])) =
      (CommentService.emptyStore, ⟨400, Body.text "Parent comment does not exist"⟩) ∧
    CommentService.createCommentHandler CommentService.emptyStore 0
        (some (.obj [("news_id", .num 1), ("text", .str "hi")])) =
      (⟨[⟨1, 1, none, "hi", formatTime 0⟩], 2⟩,
       ⟨200, Body.json (encodeResponse ⟨"success",
          some (encodeComment ⟨1, 1, none, "hi", formatTime 0⟩), "", none⟩)⟩) :=
  ⟨rfl, rfl⟩

/-- C9 amended: an explicitly supplied `parent_id` of 0 is rejected with
HTTP 400 ("Parent comment does not exist") whenever no stored comment has
id 0 — which the AUTOINCREMENT id assignment guarantees — because the
parent-existence probe runs before the positivity normalisation; only an
omitted (null) `parent_id` is treated as "no parent" and stored with a
null parent reference. -/
theorem c9_zero_parent_rejected_omitted_stored
    (store : CommentService.CommentStore) (now : Int)
    (reqBody : Option Json) (req : CommentRequest)
    (hdec : decodeCommentRequest reqBody = some req)
    (htext : req.text ≠ "") (hnid : 0 < req.newsId)
    (hz : ∀ c ∈ store.comments, c.id ≠ 0) :
    (req.parentId = some 0 →
      CommentService.createCommentHandler store now reqBody =
        (store, ⟨400, Body.text "Parent comment does not exist"⟩)) ∧
    (req.parentId = none →
      CommentService.createCommentHandler store now reqBody =
        ((CommentService.insertComment store now req).1,
         ⟨200, Body.json (encodeResponse ⟨"success",
            some (encodeComment (CommentService.insertComment store now req).2), "", none⟩)⟩) ∧
      (CommentService.insertComment store now req).2.parentId = none) := by
  have hle : ¬ (req.newsId ≤ 0) := by omega
  constructor
  · intro hp
    have hany : store.comments.any (fun c => c.id = 0) = false := by
      rw [List.any_eq_false]
      intro x hx
      simpa using hz x hx
    simp only [CommentService.createCommentHandler, hdec]
    rw [if_neg htext, if_neg hle]
    simp only [hp, hany]
    simp
  · intro hp
    refine ⟨?_, ?_⟩
    · simp only [CommentService.createCommentHandler, hdec]
      rw [if_neg htext, if_neg hle]
      simp only [hp]
    · simp only [CommentService.insertComment, hp]

/-- C9 witness: against the empty store, the explicit-0 parent submission
is rejected and the parentless one is stored with a null parent. -/
theorem c9_zero_parent_witness :
    CommentService.createCommentHandler CommentService.emptyStore 5
        (some (.obj [("news_id", .num 2), ("parent_id", .num 0), ("text", .str "zz")])) =
      (CommentService.emptyStore, ⟨400, Body.text "Parent comment does not exist"⟩) :=
  (c9_zero_parent_rejected_omitted_stored CommentService.emptyStore 5
      (some (.obj [("news_id", .num 2), ("parent_id", .num 0), ("text", .str "zz")]))
      ⟨2, some 0, "zz"⟩ rfl (by decide) (by decide)
      (by simp [CommentService.emptyStore])).1 rfl

theorem newsCall_not_persistence (idStr : String) :
    ¬ isPersistenceCall (Gateway.newsCall Gateway.defaultConfig idStr) :=
  fun h => Bool.noConfusion h

/-- C7: aggregating a news identifier the news collaborator does not know
stops after the news fetch: the collaborator's plain-text 404 body fails
to decode, the gateway reports a failure (HTTP 500), no comment-fetch call
is ever issued, and the comment store is untouched. -/
theorem c7_missing_news_no_comment_fetch
    (store : CommentService.CommentStore) (now : Int) (requestId idStr : String) (id : Int)
    (hid : atoi? idStr = some id)
    (hmiss : NewsAggregator.findNewsByID id now = none) :
    (Gateway.getNewsByIDHandler Gateway.defaultConfig (sysEnv now) store requestId idStr).2.1 =
      [Gateway.newsCall Gateway.defaultConfig idStr] ∧
    (∀ c ∈ (Gateway.getNewsByIDHandler Gateway.defaultConfig (sysEnv now) store requestId idStr).2.1,
        ¬ isPersistenceCall c) ∧
    (Gateway.getNewsByIDHandler Gateway.defaultConfig (sysEnv now) store requestId idStr).2.2 =
      ⟨500, Body.text "Failed to decode news response"⟩ ∧
    (Gateway.getNewsByIDHandler Gateway.defaultConfig (sysEnv now) store requestId idStr).1 = store := by
  have hrun : Gateway.getNewsByIDHandler Gateway.defaultConfig (sysEnv now) store requestId idStr =
      (store, [Gateway.newsCall Gateway.defaultConfig idStr],
       ⟨500, Body.text "Failed to decode news response"⟩) := by
    simp only [Gateway.getNewsByIDHandler, hid, sysEnv_newsCall,
      NewsAggregator.getNewsByIDHandler, hmiss]
    rfl
  rw [hrun]
  refine ⟨rfl, ?_, rfl, rfl⟩
  intro c hc
  simp only [List.mem_singleton] at hc
  subst hc
  exact newsCall_not_persistence idStr

/-- C7 witness: the concrete request GET /news/999 issues only the news
call and fails without touching the comment collaborator. -/
theorem c7_missing_news_witness :
    (Gateway.getNewsByIDHandler Gateway.defaultConfig (sysEnv 0)
        CommentService.emptyStore "r" "999").2.1 =
      [Gateway.newsCall Gateway.defaultConfig "999"] ∧
    (∀ c ∈ (Gateway.getNewsByIDHandler Gateway.defaultConfig (sysEnv 0)
        CommentService.emptyStore "r" "999").2.1, ¬ isPersistenceCall c) ∧
    (Gateway.getNewsByIDHandler Gateway.defaultConfig (sysEnv 0)
        CommentService.emptyStore "r" "999").2.2 =
      ⟨500, Body.text "Failed to decode news response"⟩ ∧
    (Gateway.getNewsByIDHandler Gateway.defaultConfig (sysEnv 0)
        CommentService.emptyStore "r" "999").1 = CommentService.emptyStore :=
  c7_missing_news_no_comment_fetch CommentService.emptyStore 0 "r" "999" 999 rfl rfl

/-- C5: a locally valid submission that the censor finds clean and whose
parent reference (if any) exists is persisted exactly once — the store
grows by one comment carrying the store-assigned id and the store-side
timestamp — and the gateway answers HTTP 200 with the success envelope
holding that stored comment. -/
theorem c5_clean_submission_persists_exactly_one
    (store : CommentService.CommentStore) (now : Int) (requestId : String)
    (req : CommentRequest)
    (htext : req.text ≠ "") (hnid : 0 < req.newsId)
    (hclean : CensorService.IsBanned req.text = false)
    (hparent : parentOk store req) :
    Gateway.createCommentHandler Gateway.defaultConfig (sysEnv now) store requestId
        (some (encodeCommentRequest req)) =
      ((CommentService.insertComment store now req).1,
       [Gateway.censorCall Gateway.defaultConfig requestId req.text,
        Gateway.commentCall Gateway.defaultConfig requestId req],
       ⟨200, Body.json (encodeResponse ⟨"success",
          some (canonJson (encodeComment (CommentService.insertComment store now req).2)),
          "", none⟩)⟩) ∧
    (CommentService.insertComment store now req).1.comments =
      store.comments ++ [(CommentService.insertComment store now req).2] ∧
    (CommentService.insertComment store now req).2.id = store.nextId ∧
    (CommentService.insertComment store now req).2.createdAt = formatTime now := by
  have hle : ¬ (req.newsId ≤ 0) := by omega
  refine ⟨?_, rfl, rfl, rfl⟩
  simp only [Gateway.createCommentHandler, decodeCommentRequest_encode]
  rw [if_neg htext, if_neg hle]
  simp only [sysEnv_censorCall, checkHandler_eq, hclean]
  simp only [Bool.false_eq_true, if_false]
  simp only [sysEnv_commentCall, csCreate_ok store now req htext hnid hparent]
  simp only [decodeResponse_commentEnvelope]
  simp

/-- C5 witness: the concrete clean submission news_id 1, text "hello"
against the empty store is stored as comment 1 and echoed back in a
success envelope. -/
theorem c5_clean_submission_witness :
    Gateway.createCommentHandler Gateway.defaultConfig (sysEnv 0)
        CommentService.emptyStore "r"
        (some (encodeCommentRequest ⟨1, none, "hello"⟩)) =
      ((CommentService.insertComment CommentService.emptyStore 0 ⟨1, none, "hello"⟩).1,
       [Gateway.censorCall Gateway.defaultConfig "r" "hello",
        Gateway.commentCall Gateway.defaultConfig "r" ⟨1, none, "hello"⟩],
       ⟨200, Body.json (encodeResponse ⟨"success",
          some (canonJson (encodeComment
            (CommentService.insertComment CommentService.emptyStore 0 ⟨1, none, "hello"⟩).2)),
          "", none⟩)⟩) ∧
    (CommentService.insertComment CommentService.emptyStore 0 ⟨1, none, "hello"⟩).1.comments =
      CommentService.emptyStore.comments ++
        [(CommentService.insertComment CommentService.emptyStore 0 ⟨1, none, "hello"⟩).2] ∧
    (CommentService.insertComment CommentService.emptyStore 0 ⟨1, none, "hello"⟩).2.id =
      CommentService.emptyStore.nextId ∧
    (CommentService.insertComment CommentService.emptyStore 0 ⟨1, none, "hello"⟩).2.createdAt =
      formatTime 0 :=
  c5_clean_submission_persists_exactly_one CommentService.emptyStore 0 "r"
    ⟨1, none, "hello"⟩ (by decide) (by decide) (by decide) trivial

theorem aggregate_ok (store : CommentService.CommentStore) (now : Int)
    (requestId idStr : String) (id : Int) (item : NewsItem)
    (hid : atoi? idStr = some id)
    (hfind : NewsAggregator.findNewsByID id now = some item)
    (hs : toString id ≠ "")
    (hback : atoi? (toString id) = some id)
    (hfilter : store.comments.filter (fun c => c.newsId = id) = []) :
    Gateway.getNewsByIDHandler Gateway.defaultConfig (sysEnv now) store requestId idStr =
      (store,
       [Gateway.newsCall Gateway.defaultConfig idStr,
        Gateway.commentsCall Gateway.defaultConfig id],
       ⟨200, Body.json (encodeResponse ⟨"success",
          some (Gateway.mergedPayload item Json.null requestId), "", none⟩)⟩) := by
  simp only [Gateway.getNewsByIDHandler, hid, sysEnv_newsCall,
    NewsAggregator.getNewsByIDHandler, hfind, decodeNewsItem_encode,
    sysEnv_commentsCall, CommentService.getCommentsHandler]
  rw [if_neg hs]
  simp only [hback, hfilter]
  rfl

/-- C10: for a news item with no stored comments, the merged GET /news/id
payload carries a comments field that is the JSON null (the comment
collaborator encodes its nil result slice as null, and the gateway
forwards the decoded data field verbatim), not an empty JSON array. -/
theorem c10_no_comments_yields_null_comments
    (store : CommentService.CommentStore) (now : Int) (requestId : String) (id : Int)
    (hmem : id ∈ ([1, 2, 3, 4, 5] : List Int))
    (hnone : ∀ c ∈ store.comments, c.newsId ≠ id) :
    (∃ item : NewsItem,
      Gateway.getNewsByIDHandler Gateway.defaultConfig (sysEnv now) store requestId
          (toString id) =
        (store,
         [Gateway.newsCall Gateway.defaultConfig (toString id),
          Gateway.commentsCall Gateway.defaultConfig id],
         ⟨200, Body.json (encodeResponse ⟨"success",
            some (Gateway.mergedPayload item Json.null requestId), "", none⟩)⟩)) ∧
    Json.null ≠ Json.arr [] := by
  have hfilter : store.comments.filter (fun c => c.newsId = id) = [] := by
    rw [List.filter_eq_nil_iff]
    intro c hc
    simpa using hnone c hc
  refine ⟨?_, fun h => Json.noConfusion h⟩
  have h5 : id = 1 ∨ id = 2 ∨ id = 3 ∨ id = 4 ∨ id = 5 := by simpa using hmem
  rcases h5 with rfl | rfl | rfl | rfl | rfl
  all_goals exact ⟨_, aggregate_ok store now requestId _ _ _ rfl rfl (by decide) rfl hfilter⟩

/-- C10 witness: against the empty store, GET /news/1 merges the news item
with a JSON-null comments field. -/
theorem c10_no_comments_witness :
    (∃ item : NewsItem,
      Gateway.getNewsByIDHandler Gateway.defaultConfig (sysEnv 0)
          CommentService.emptyStore "r" (toString (1 : Int)) =
        (CommentService.emptyStore,
         [Gateway.newsCall Gateway.defaultConfig (toString (1 : Int)),
          Gateway.commentsCall Gateway.defaultConfig 1],
         ⟨200, Body.json (encodeResponse ⟨"success",
            some (Gateway.mergedPayload item Json.null "r"), "", none⟩)⟩)) ∧
    Json.null ≠ Json.arr [] :=
  c10_no_comments_yields_null_comments CommentService.emptyStore 0 "r" 1
    (by decide) (by simp [CommentService.emptyStore])

/-- C8 counterexample: two GET /news/1 requests against the same comment
store with no intervening writes, one with the collaborator clock at
second 0 and one at second 1, disagree on the news date content even
though the correlation identifier is identical: the mock news dates embed
the collaborator's current clock. -/
theorem c8_counterexample :
    newsDateOf (Gateway.getNewsByIDHandler Gateway.defaultConfig (sysEnv 0)
        CommentService.emptyStore "r" "1").2.2 = some (formatTime 0) ∧
    newsDateOf (Gateway.getNewsByIDHandler Gateway.defaultConfig (sysEnv 1)
        CommentService.emptyStore "r" "1").2.2 = some (formatTime 1) ∧
    formatTime 0 ≠ formatTime 1 :=
  ⟨rfl, rfl, by decide⟩

/-- C8 amended: repeating GET /news/id against the same collaborator world
(same comment store and same collaborator clock reading, hence the same
environment) yields identical traces, identical collaborator state and
identical news and comments payload content, differing at most in the
request_id field; across different clock readings the news date fields
differ, as the counterexample shows. -/
theorem c8_same_world_identical_content {σ : Type}
    (env : σ → DownstreamCall → σ × Option HttpResponse) (s0 : σ)
    (ridA ridB idParam : String) :
    (Gateway.getNewsByIDHandler Gateway.defaultConfig env s0 ridA idParam).1 =
      (Gateway.getNewsByIDHandler Gateway.defaultConfig env s0 ridB idParam).1 ∧
    (Gateway.getNewsByIDHandler Gateway.defaultConfig env s0 ridA idParam).2.1 =
      (Gateway.getNewsByIDHandler Gateway.defaultConfig env s0 ridB idParam).2.1 ∧
    ((Gateway.getNewsByIDHandler Gateway.defaultConfig env s0 ridA idParam).2.2 =
       (Gateway.getNewsByIDHandler Gateway.defaultConfig env s0 ridB idParam).2.2 ∨
     ∃ item cdata,
       (Gateway.getNewsByIDHandler Gateway.defaultConfig env s0 ridA idParam).2.2 =
         ⟨200, Body.json (encodeResponse ⟨"success",
            some (Gateway.mergedPayload item cdata ridA), "", none⟩)⟩ ∧
       (Gateway.getNewsByIDHandler Gateway.defaultConfig env s0 ridB idParam).2.2 =
         ⟨200, Body.json (encodeResponse ⟨"success",
            some (Gateway.mergedPayload item cdata ridB), "", none⟩)⟩) := by
  cases hat : atoi? idParam with
  | none =>
    simp [Gateway.getNewsByIDHandler, hat]
  | some nid =>
    cases henv1 : (env s0 (Gateway.newsCall Gateway.defaultConfig idParam)).2 with
    | none =>
      simp [Gateway.getNewsByIDHandler, hat, henv1]
    | some r1 =>
      cases hd1 : decodeNewsItem r1.body with
      | none =>
        simp [Gateway.getNewsByIDHandler, hat, henv1, hd1]
      | some item =>
        cases henv2 : (env (env s0 (Gateway.newsCall Gateway.defaultConfig idParam)).1
            (Gateway.commentsCall Gateway.defaultConfig nid)).2 with
        | none =>
          simp [Gateway.getNewsByIDHandler, hat, henv1, hd1, henv2]
        | some r2 =>
          cases hd2 : decodeResponse r2.body with
          | none =>
            simp [Gateway.getNewsByIDHandler, hat, henv1, hd1, henv2, hd2]
          | some m =>
            refine ⟨?_, ?_, Or.inr ⟨item, m.data.getD Json.null, ?_, ?_⟩⟩
            all_goals simp only [Gateway.getNewsByIDHandler, hat, henv1, hd1, henv2, hd2]

theorem createComment_calls_carry_rid {σ : Type}
    (env : σ → DownstreamCall → σ × Option HttpResponse) (s0 : σ)
    (rid : String) (body : Option Json) :
    ∀ c ∈ (Gateway.createCommentHandler Gateway.defaultConfig env s0 rid body).2.1,
      hasRequestId rid c = true := by
  intro c hc
  have hcens : ∀ t : String,
      hasRequestId rid (Gateway.censorCall Gateway.defaultConfig rid t) = true := by
    intro t
    simp [hasRequestId, Gateway.censorCall]
  have hcomm : ∀ req : CommentRequest,
      hasRequestId rid (Gateway.commentCall Gateway.defaultConfig rid req) = true := by
    intro req
    simp [hasRequestId, Gateway.commentCall]
  simp only [Gateway.createCommentHandler] at hc
  repeat' split at hc
  all_goals simp at hc
  all_goals first
    | (subst hc; first | exact hcens _ | exact hcomm _)
    | (rcases hc with rfl | rfl
       · exact hcens _
       · exact hcomm _)

theorem getNews_calls_have_no_headers {σ : Type}
    (env : σ → DownstreamCall → σ × Option HttpResponse) (s0 : σ)
    (rid idParam : String) :
    ∀ c ∈ (Gateway.getNewsByIDHandler Gateway.defaultConfig env s0 rid idParam).2.1,
      c.headers = [] := by
  intro c hc
  simp only [Gateway.getNewsByIDHandler] at hc
  repeat' split at hc
  all_goals simp at hc
  all_goals first
    | (subst hc; rfl)
    | (rcases hc with rfl | rfl
       · rfl
       · rfl)

theorem getNews_ok_payload_carries_rid {σ : Type}
    (env : σ → DownstreamCall → σ × Option HttpResponse) (s0 : σ)
    (rid idParam : String)
    (h200 : (Gateway.getNewsByIDHandler Gateway.defaultConfig env s0 rid idParam).2.2.status = 200) :
    ∃ item cdata,
      (Gateway.getNewsByIDHandler Gateway.defaultConfig env s0 rid idParam).2.2 =
        ⟨200, Body.json (encodeResponse ⟨"success",
           some (Gateway.mergedPayload item cdata rid), "", none⟩)⟩ := by
  cases hat : atoi? idParam with
  | none =>
    rw [show (Gateway.getNewsByIDHandler Gateway.defaultConfig env s0 rid idParam).2.2.status =
        (400 : Nat) from by simp [Gateway.getNewsByIDHandler, hat]] at h200
    omega
  | some nid =>
    cases henv1 : (env s0 (Gateway.newsCall Gateway.defaultConfig idParam)).2 with
    | none =>
      rw [show (Gateway.getNewsByIDHandler Gateway.defaultConfig env s0 rid idParam).2.2.status =
          (500 : Nat) from by simp [Gateway.getNewsByIDHandler, hat, henv1]] at h200
      omega
    | some r1 =>
      cases hd1 : decodeNewsItem r1.body with
      | none =>
        rw [show (Gateway.getNewsByIDHandler Gateway.defaultConfig env s0 rid idParam).2.2.status =
            (500 : Nat) from by simp [Gateway.getNewsByIDHandler, hat, henv1, hd1]] at h200
        omega
      | some item =>
        cases henv2 : (env (env s0 (Gateway.newsCall Gateway.defaultConfig idParam)).1
            (Gateway.commentsCall Gateway.defaultConfig nid)).2 with
        | none =>
          rw [show (Gateway.getNewsByIDHandler Gateway.defaultConfig env s0 rid idParam).2.2.status =
              (500 : Nat) from by simp [Gateway.getNewsByIDHandler, hat, henv1, hd1, henv2]] at h200
          omega
        | some r2 =>
          cases hd2 : decodeResponse r2.body with
          | none =>
            rw [show (Gateway.getNewsByIDHandler Gateway.defaultConfig env s0 rid idParam).2.2.status =
                (500 : Nat) from by
              simp [Gateway.getNewsByIDHandler, hat, henv1, hd1, henv2, hd2]] at h200
            omega
          | some m =>
            refine ⟨item, m.data.getD Json.null, ?_⟩
            simp only [Gateway.getNewsByIDHandler, hat, henv1, hd1, henv2, hd2]

/-- C3 counterexample: on a concrete aggregated request the downstream
calls do not all carry the correlation identifier: the news fetch and the
comment-list fetch are issued with no X-Request-ID header at all. -/
theorem c3_counterexample :
    ((Gateway.getNewsByIDHandler Gateway.defaultConfig (sysEnv 0)
        CommentService.emptyStore "rid-1" "1").2.1.all (hasRequestId "rid-1")) = false := rfl

/-- C3 amended: the correlation identifier (taken from the inbound header
or freshly generated non-empty) is carried as an X-Request-ID header on
the moderation and persistence calls and reproduced in the aggregated
response payload, but the news-item fetch and the comment-list fetch are
issued through `client.Get` with no X-Request-ID header at all. -/
theorem c3_correlation_id_propagation :
    (∀ (σ : Type) (env : σ → DownstreamCall → σ × Option HttpResponse) (s0 : σ)
        (rid : String) (body : Option Json),
      ∀ c ∈ (Gateway.createCommentHandler Gateway.defaultConfig env s0 rid body).2.1,
        hasRequestId rid c = true) ∧
    (∀ (σ : Type) (env : σ → DownstreamCall → σ × Option HttpResponse) (s0 : σ)
        (rid idParam : String),
      ∀ c ∈ (Gateway.getNewsByIDHandler Gateway.defaultConfig env s0 rid idParam).2.1,
        c.headers = []) ∧
    (∀ (σ : Type) (env : σ → DownstreamCall → σ × Option HttpResponse) (s0 : σ)
        (rid idParam : String),
      (Gateway.getNewsByIDHandler Gateway.defaultConfig env s0 rid idParam).2.2.status = 200 →
      ∃ item cdata,
        (Gateway.getNewsByIDHandler Gateway.defaultConfig env s0 rid idParam).2.2 =
          ⟨200, Body.json (encodeResponse ⟨"success",
             some (Gateway.mergedPayload item cdata rid), "", none⟩)⟩) ∧
    (∀ h f : String, h ≠ "" → Gateway.requestIDMiddleware h f = h) ∧
    (∀ a b c d e : Nat, Gateway.requestIDMiddleware "" (Gateway.uuidString a b c d e) ≠ "") := by
  refine ⟨fun σ env s0 rid body => createComment_calls_carry_rid env s0 rid body,
          fun σ env s0 rid idParam => getNews_calls_have_no_headers env s0 rid idParam,
          fun σ env s0 rid idParam h => getNews_ok_payload_carries_rid env s0 rid idParam h,
          ?_, ?_⟩
  · intro h f hne
    simp [Gateway.requestIDMiddleware, hne]
  · intro a b c d e h
    have h2 : Gateway.uuidString a b c d e = "" := h
    exact List.noConfusion (congrArg String.data h2)

/-- C3 witness: the moderation call of a concrete request carries the
identifier, a non-empty inbound header is kept, and a generated identifier
is non-empty. -/
theorem c3_correlation_id_witness :
    hasRequestId "r" (Gateway.censorCall Gateway.defaultConfig "r" "hello") = true ∧
    Gateway.requestIDMiddleware "abc" "fresh" = "abc" ∧
    Gateway.requestIDMiddleware "" (Gateway.uuidString 0 0 0 0 0) ≠ "" := by
  have h := c3_correlation_id_propagation
  refine ⟨?_, h.2.2.2.1 "abc" "fresh" (by decide), h.2.2.2.2 0 0 0 0 0⟩
  refine h.1 Unit (fun s _ => (s, none)) () "r"
    (some (.obj [("news_id", .num 1), ("text", .str "hello")]))
    (Gateway.censorCall Gateway.defaultConfig "r" "hello") ?_
  rw [show (Gateway.createCommentHandler Gateway.defaultConfig
      (fun (s : Unit) _ => (s, none)) () "r"
      (some (.obj [("news_id", .num 1), ("text", .str "hello")]))).2.1 =
    [Gateway.censorCall Gateway.defaultConfig "r" "hello"] from rfl]
  exact List.mem_singleton.mpr rfl
